import Mathlib

/-!
# Data model of the Mudrex trading SDK (`models.go`)

A shallow embedding of `package mudrex`, file `models.go`: the string-backed
enum types and their declared constants, the `Position`, `OrderRequest`,
`APIResponse` and `APIError` structs, the one method of the package
(`Position.PnLPercentage`), and the JSON shape that the struct tags fix for
`OrderRequest` and `APIResponse`.

Conventions of the embedding:
* a Go `string` is a Lean `String`; `len(s) == 0` is `s = ""`;
* a Go `*string` is an `Option String` (`nil` is `none`);
* a Go `error` result is an `Option` of an error value (`nil` is `none`);
* a method with a pointer receiver is a step on the pointed-to struct: it
  returns the struct after the call together with its results.
-/

namespace Mudrex

/-! ## Enums (models.go, lines 8-43) -/

/-- Go: `type OrderType string`. -/
structure OrderType where
  val : String
  deriving DecidableEq, Repr

/-- Go: `type TriggerType string`. -/
structure TriggerType where
  val : String
  deriving DecidableEq, Repr

/-- Go: `type MarginType string`. -/
structure MarginType where
  val : String
  deriving DecidableEq, Repr

/-- Go: `type OrderStatus string`. -/
structure OrderStatus where
  val : String
  deriving DecidableEq, Repr

/-- Go: `type PositionStatus string`. -/
structure PositionStatus where
  val : String
  deriving DecidableEq, Repr

/-- Go: `type WalletType string`. -/
structure WalletType where
  val : String
  deriving DecidableEq, Repr

def OrderTypeLong : OrderType := ⟨"LONG"⟩
def OrderTypeShort : OrderType := ⟨"SHORT"⟩

def TriggerTypeMarket : TriggerType := ⟨"MARKET"⟩
def TriggerTypeLimit : TriggerType := ⟨"LIMIT"⟩

def MarginTypeIsolated : MarginType := ⟨"ISOLATED"⟩

def OrderStatusOpen : OrderStatus := ⟨"OPEN"⟩
def OrderStatusFilled : OrderStatus := ⟨"FILLED"⟩
def OrderStatusPartiallyFilled : OrderStatus := ⟨"PARTIALLY_FILLED"⟩
def OrderStatusCancelled : OrderStatus := ⟨"CANCELLED"⟩
def OrderStatusExpired : OrderStatus := ⟨"EXPIRED"⟩

def PositionStatusOpen : PositionStatus := ⟨"OPEN"⟩
def PositionStatusClosed : PositionStatus := ⟨"CLOSED"⟩
def PositionStatusLiquidated : PositionStatus := ⟨"LIQUIDATED"⟩

def WalletTypeSpot : WalletType := ⟨"SPOT"⟩
def WalletTypeFutures : WalletType := ⟨"FUTURES"⟩

/-- The constants declared for `OrderType`, in declaration order. -/
def orderTypeConstants : List OrderType := [OrderTypeLong, OrderTypeShort]

/-- The constants declared for `TriggerType`. -/
def triggerTypeConstants : List TriggerType := [TriggerTypeMarket, TriggerTypeLimit]

/-- The constants declared for `MarginType`. -/
def marginTypeConstants : List MarginType := [MarginTypeIsolated]

/-- The constants declared for `OrderStatus`. -/
def orderStatusConstants : List OrderStatus :=
  [OrderStatusOpen, OrderStatusFilled, OrderStatusPartiallyFilled,
   OrderStatusCancelled, OrderStatusExpired]

/-- The constants declared for `PositionStatus`. -/
def positionStatusConstants : List PositionStatus :=
  [PositionStatusOpen, PositionStatusClosed, PositionStatusLiquidated]

/-- The constants declared for `WalletType`. -/
def walletTypeConstants : List WalletType := [WalletTypeSpot, WalletTypeFutures]

/-! ## Structs -/

/-- Go: `time.Time` (standard library), kept as an instant: seconds and
nanoseconds since the Unix epoch. No operation of `models.go` reads it. -/
structure Time where
  sec : Int
  nsec : Nat
  deriving DecidableEq, Repr

/-- Go: `type OrderRequest struct` (models.go, lines 99-108). -/
structure OrderRequest where
  Leverage : String
  Quantity : String
  OrderType : OrderType
  TriggerType : TriggerType
  Price : Option String
  StopLossPrice : Option String
  TakeProfitPrice : Option String
  ReduceOnly : Bool
  deriving DecidableEq, Repr

/-- Go: `type Position struct` (models.go, lines 130-148). -/
structure Position where
  PositionID : String
  Symbol : String
  AssetID : String
  EntryPrice : String
  Quantity : String
  Side : OrderType
  Status : PositionStatus
  Leverage : String
  UnrealizedPnL : String
  RealizedPnL : String
  Margin : String
  MarginRatio : String
  MarkPrice : String
  StopLoss : Option String
  TakeProfit : Option String
  CreatedAt : Time
  UpdatedAt : Time
  deriving DecidableEq, Repr

/-- Go: `type APIError struct` (models.go, lines 188-191). -/
structure APIError where
  Code : Int
  Message : String
  deriving DecidableEq, Repr

/-- Go: `type APIResponse struct` (models.go, lines 180-185). `Data` is a
`json.RawMessage`, a byte slice holding raw JSON text. -/
structure APIResponse where
  Success : Bool
  Message : String
  Data : String
  Error : Option APIError
  deriving DecidableEq, Repr

/-! ## The error kinds named by the specification -/

/-- Modelled from the spec: the error kinds of the specification's error
handling section (`InvalidDecimal`, `DivisionByZero`, `Overflow`). The source
declares no error values; `PnLPercentage` only ever returns `nil`. -/
inductive CalcError where
  | InvalidDecimal
  | DivisionByZero
  | Overflow
  deriving DecidableEq, Repr

/-! ## `Position.PnLPercentage` (models.go, lines 150-154) -/

/-- Go:
```
func (p *Position) PnLPercentage() (string, error) {
	// This is a placeholder - actual implementation would parse and calculate
	return "0", nil
}
```
as a step on the receiver: the body performs no assignment through `p`, so the
struct after the call is the struct before it. -/
def PnLPercentageStep (p : Position) : Position × String × Option CalcError :=
  (p, "0", none)

/-- The results `(string, error)` of `p.PnLPercentage()`. -/
def PnLPercentage (p : Position) : String × Option CalcError :=
  (PnLPercentageStep p).2

/-- The functions and methods that `models.go` declares, one constructor per
`func` declaration. The file has exactly one, at line 151:
`func (p *Position) PnLPercentage() (string, error)`; everything else in it is
a `type` or `const` declaration. -/
inductive Operation where
  | PnLPercentage
  deriving DecidableEq, Repr

/-- Running a declared operation on a position. -/
def Operation.run : Operation → Position → String × Option CalcError
  | .PnLPercentage, p => Mudrex.PnLPercentage p

/-! ## Decimal strings -/

/-- An exact decimal: sign, unscaled coefficient and number of fraction digits. -/
structure Decimal where
  neg : Bool
  coeff : Nat
  scale : Nat
  deriving DecidableEq, Repr

/-- The rational number a decimal denotes. -/
def Decimal.toRat (d : Decimal) : ℚ :=
  (if d.neg then -1 else 1) * (d.coeff : ℚ) / (10 : ℚ) ^ d.scale

/-- Reads a run of ASCII digits in base ten, continuing from `acc`. -/
def digitsValue : List Char → Nat → Option Nat
  | [], acc => some acc
  | c :: cs, acc =>
    if c.isDigit then digitsValue cs (acc * 10 + (c.toNat - 48)) else none

/-- An unsigned decimal: one or more digits, optionally followed by a point
and one or more digits. -/
def parseUnsigned (neg : Bool) (cs : List Char) : Option Decimal :=
  match cs.span (fun c => c != '.') with
  | ([], _) => none
  | (ip, []) => (digitsValue ip 0).map (fun n => ⟨neg, n, 0⟩)
  | (_, [_]) => none
  | (ip, _ :: fp) => (digitsValue (ip ++ fp) 0).map (fun n => ⟨neg, n, fp.length⟩)

/-- Modelled from the spec: what a "well-formed decimal string" is. The source
has no decimal parser and the specification fixes no grammar; this one reads
an optional sign, one or more digits, and optionally a point followed by one
or more digits. -/
def parseDecimal (s : String) : Option Decimal :=
  match s.toList with
  | '-' :: cs => parseUnsigned true cs
  | '+' :: cs => parseUnsigned false cs
  | cs => parseUnsigned false cs

/-- The value of a decimal string, when it is well formed. -/
def decimalValue (s : String) : Option ℚ :=
  (parseDecimal s).map Decimal.toRat

/-! ## JSON encoding fixed by the struct tags

The encoder is Go's `encoding/json`; what this file fixes are the keys and the
`omitempty` options. A struct is encoded field by field in declaration order;
a field tagged `omitempty` is skipped when its value is empty, which for a
string or byte slice means length zero, for a bool `false`, and for a pointer
`nil`. -/

/-- JSON values as produced by the encoder. `raw` holds the text of a
`json.RawMessage`, copied into the output. -/
inductive JValue where
  | null
  | bool (b : Bool)
  | num (n : Int)
  | str (s : String)
  | raw (text : String)
  | obj (fields : List (String × JValue))

/-- The keys of a JSON object, in output order (no keys for a non-object). -/
def JValue.keys : JValue → List String
  | .obj fields => fields.map Prod.fst
  | _ => []

/-- The value stored under a key of a JSON object. -/
def JValue.get (k : String) : JValue → Option JValue
  | .obj fields => (fields.find? (fun kv => kv.1 == k)).map Prod.snd
  | _ => none

/-- The output of one struct field: nothing when the field is tagged
`omitempty` and its value is empty, the key and value otherwise. -/
def encodeField (omitEmpty isEmpty : Bool) (key : String) (v : JValue) :
    List (String × JValue) :=
  if omitEmpty && isEmpty then [] else [(key, v)]

/-- A `*string` field: `null` for a nil pointer, else the string pointed to. -/
def encodeStringPtr : Option String → JValue
  | none => .null
  | some s => .str s

/-- Encoding of an `APIError` value: both fields are always written. -/
def encodeAPIError (e : APIError) : JValue :=
  .obj (encodeField false false "code" (.num e.Code)
    ++ encodeField false (e.Message == "") "message" (.str e.Message))

/-- A `*APIError` field. -/
def encodeAPIErrorPtr : Option APIError → JValue
  | none => .null
  | some e => encodeAPIError e

/-- `json.Marshal` of an `OrderRequest`. Every field is a string, a string
pointer or a bool, so encoding cannot fail. -/
def marshalOrderRequest (r : OrderRequest) : JValue :=
  .obj (encodeField false (r.Leverage == "") "leverage" (.str r.Leverage)
    ++ encodeField false (r.Quantity == "") "quantity" (.str r.Quantity)
    ++ encodeField false (r.OrderType.val == "") "order_type" (.str r.OrderType.val)
    ++ encodeField false (r.TriggerType.val == "") "trigger_type" (.str r.TriggerType.val)
    ++ encodeField true r.Price.isNone "price" (encodeStringPtr r.Price)
    ++ encodeField true r.StopLossPrice.isNone "stoploss_price"
        (encodeStringPtr r.StopLossPrice)
    ++ encodeField true r.TakeProfitPrice.isNone "takeprofit_price"
        (encodeStringPtr r.TakeProfitPrice)
    ++ encodeField true (!r.ReduceOnly) "reduce_only" (.bool r.ReduceOnly))

/-- `json.Marshal` of an `APIResponse`. The encoder checks the bytes of a
written `json.RawMessage` and fails when they are not valid JSON; `valid` is
that check (`encoding/json`, not part of this package). `none` is the
encoder's error. -/
def marshalAPIResponse (valid : String → Bool) (r : APIResponse) : Option JValue :=
  if (r.Data == "") || valid r.Data then
    some (.obj (encodeField false (!r.Success) "success" (.bool r.Success)
      ++ encodeField true (r.Message == "") "message" (.str r.Message)
      ++ encodeField true (r.Data == "") "data" (.raw r.Data)
      ++ encodeField true r.Error.isNone "error" (encodeAPIErrorPtr r.Error)))
  else none

/-- A check that accepts the JSON literals and the empty object and array
only; a stand-in for the encoder's validity check on small inputs. -/
def validLiteral (s : String) : Bool :=
  s == "null" || s == "true" || s == "false" || s == "{}" || s == "[]"

/-! ## Sample values -/

/-- A position with the given decimal fields, long, open, no risk prices. -/
def samplePosition (entry mark qty pnl margin : String) : Position :=
  { PositionID := "p-1", Symbol := "BTCUSDT", AssetID := "a-1",
    EntryPrice := entry, Quantity := qty, Side := OrderTypeLong,
    Status := PositionStatusOpen, Leverage := "5", UnrealizedPnL := pnl,
    RealizedPnL := "0", Margin := margin, MarginRatio := "0.1",
    MarkPrice := mark, StopLoss := none, TakeProfit := none,
    CreatedAt := ⟨0, 0⟩, UpdatedAt := ⟨0, 0⟩ }

/-- Unrealized P&L "10" on margin "100": the percentage would be 10. -/
def profitPosition : Position := samplePosition "100" "110" "2" "10" "100"

/-- Unrealized P&L "5" on margin "0". -/
def zeroMarginPosition : Position := samplePosition "100" "110" "2" "5" "0"

/-- Unrealized P&L "abc", not a decimal string. -/
def malformedPosition : Position := samplePosition "100" "110" "2" "abc" "100"

/-- Entry "100", mark "110", quantity "2", side long (the specification's
example for unrealized P&L). -/
def examplePosition : Position := samplePosition "100" "110" "2" "20" "40"

/-- An order request with no optional price and `ReduceOnly` false. -/
def plainRequest : OrderRequest :=
  { Leverage := "5", Quantity := "0.01", OrderType := OrderTypeLong,
    TriggerType := TriggerTypeMarket, Price := none, StopLossPrice := none,
    TakeProfitPrice := none, ReduceOnly := false }

/-- A failed response carrying an error object and a literal payload. -/
def errorResponse : APIResponse :=
  { Success := false, Message := "", Data := "null",
    Error := some { Code := 404, Message := "not found" } }

/-! ## Facts about decimal strings -/

theorem decimalValue_of_parse {s : String} {d : Decimal} (h : parseDecimal s = some d) :
    decimalValue s = some d.toRat := by
  simp [decimalValue, h]

theorem decimalValue_zero : decimalValue "0" = some 0 := by
  have h : parseDecimal "0" = some ⟨false, 0, 0⟩ := by decide
  rw [decimalValue_of_parse h]
  simp [Decimal.toRat]

theorem decimalValue_ten : decimalValue "10" = some 10 := by
  have h : parseDecimal "10" = some ⟨false, 10, 0⟩ := by decide
  rw [decimalValue_of_parse h]
  simp [Decimal.toRat]

theorem decimalValue_hundred : decimalValue "100" = some 100 := by
  have h : parseDecimal "100" = some ⟨false, 100, 0⟩ := by decide
  rw [decimalValue_of_parse h]
  simp [Decimal.toRat]

theorem decimalValue_two : decimalValue "2" = some 2 := by
  have h : parseDecimal "2" = some ⟨false, 2, 0⟩ := by decide
  rw [decimalValue_of_parse h]
  simp [Decimal.toRat]

theorem decimalValue_hundred_ten : decimalValue "110" = some 110 := by
  have h : parseDecimal "110" = some ⟨false, 110, 0⟩ := by decide
  rw [decimalValue_of_parse h]
  simp [Decimal.toRat]

theorem decimalValue_malformed : decimalValue "abc" = none := by
  have h : parseDecimal "abc" = none := by decide
  simp [decimalValue, h]

/-! ## `PnLPercentage` -/

/-- C1: for every Position, whatever its field values, `p.PnLPercentage()`
returns the constant string "0" together with a nil error. -/
theorem PnLPercentage_constant (p : Position) : PnLPercentage p = ("0", none) :=
  rfl

/-- C2 (the code at a failing input): on a position with unrealized P&L "10"
and margin "100", both well-formed and the margin nonzero, `PnLPercentage`
returns "0" with a nil error; the value of "0" is 0, while
`UnrealizedPnL / Margin * 100` is 10. -/
theorem PnLPercentage_profit_returns_zero :
    decimalValue profitPosition.UnrealizedPnL = some 10 ∧
    decimalValue profitPosition.Margin = some 100 ∧
    PnLPercentage profitPosition = ("0", none) ∧
    decimalValue (PnLPercentage profitPosition).1 = some 0 ∧
    (0 : ℚ) ≠ 10 / 100 * 100 :=
  ⟨decimalValue_ten, decimalValue_hundred, rfl, decimalValue_zero, by norm_num⟩

/-- C3 (the code at a failing input): on a position whose margin is exactly
"0", `PnLPercentage` returns the value "0" with a nil error, not a
`DivisionByZero` error. -/
theorem PnLPercentage_zero_margin_no_error :
    zeroMarginPosition.Margin = "0" ∧
    PnLPercentage zeroMarginPosition = ("0", none) ∧
    (PnLPercentage zeroMarginPosition).2 ≠ some CalcError.DivisionByZero :=
  ⟨rfl, rfl, by decide⟩

/-- C4 (the code at a failing input): on a position whose unrealized P&L is
"abc", which is not a well-formed decimal, `PnLPercentage` returns the default
"0" with a nil error, not an `InvalidDecimal` error. -/
theorem PnLPercentage_malformed_no_error :
    decimalValue malformedPosition.UnrealizedPnL = none ∧
    PnLPercentage malformedPosition = ("0", none) ∧
    (PnLPercentage malformedPosition).2 ≠ some CalcError.InvalidDecimal :=
  ⟨decimalValue_malformed, rfl, by decide⟩

/-- C5: for every Position whose unrealized P&L is "0" and whose margin is a
well-formed nonzero decimal, `PnLPercentage` succeeds (nil error) and returns
a string whose value is 0. -/
theorem PnLPercentage_zero_pnl (p : Position) (_hpnl : p.UnrealizedPnL = "0")
    (_hmargin : ∃ m : ℚ, decimalValue p.Margin = some m ∧ m ≠ 0) :
    ∃ v : String, PnLPercentage p = (v, none) ∧ decimalValue v = some 0 :=
  ⟨"0", rfl, decimalValue_zero⟩

/-- Witness for C5: unrealized P&L "0" on margin "100". -/
theorem PnLPercentage_zero_pnl_witness :
    (samplePosition "100" "100" "2" "0" "100").UnrealizedPnL = "0" ∧
    (∃ m : ℚ, decimalValue (samplePosition "100" "100" "2" "0" "100").Margin = some m
      ∧ m ≠ 0) ∧
    ∃ v : String, PnLPercentage (samplePosition "100" "100" "2" "0" "100") = (v, none)
      ∧ decimalValue v = some 0 :=
  ⟨rfl, ⟨100, decimalValue_hundred, by norm_num⟩,
    PnLPercentage_zero_pnl (samplePosition "100" "100" "2" "0" "100") rfl
      ⟨100, decimalValue_hundred, by norm_num⟩⟩

/-- C6: `PnLPercentage` is pure. The Position after the call equals the
Position before it, field by field, and a second call on it returns the same
result as the first. -/
theorem PnLPercentage_pure (p : Position) :
    (PnLPercentageStep p).1 = p ∧
    ((PnLPercentageStep p).1.PositionID = p.PositionID ∧
     (PnLPercentageStep p).1.Symbol = p.Symbol ∧
     (PnLPercentageStep p).1.AssetID = p.AssetID ∧
     (PnLPercentageStep p).1.EntryPrice = p.EntryPrice ∧
     (PnLPercentageStep p).1.Quantity = p.Quantity ∧
     (PnLPercentageStep p).1.Side = p.Side ∧
     (PnLPercentageStep p).1.Status = p.Status ∧
     (PnLPercentageStep p).1.Leverage = p.Leverage ∧
     (PnLPercentageStep p).1.UnrealizedPnL = p.UnrealizedPnL ∧
     (PnLPercentageStep p).1.RealizedPnL = p.RealizedPnL ∧
     (PnLPercentageStep p).1.Margin = p.Margin ∧
     (PnLPercentageStep p).1.MarginRatio = p.MarginRatio ∧
     (PnLPercentageStep p).1.MarkPrice = p.MarkPrice ∧
     (PnLPercentageStep p).1.StopLoss = p.StopLoss ∧
     (PnLPercentageStep p).1.TakeProfit = p.TakeProfit ∧
     (PnLPercentageStep p).1.CreatedAt = p.CreatedAt ∧
     (PnLPercentageStep p).1.UpdatedAt = p.UpdatedAt) ∧
    (PnLPercentageStep (PnLPercentageStep p).1).2 = (PnLPercentageStep p).2 ∧
    PnLPercentage (PnLPercentageStep p).1 = PnLPercentage p :=
  ⟨rfl, ⟨rfl, rfl, rfl, rfl, rfl, rfl, rfl, rfl, rfl, rfl, rfl, rfl, rfl, rfl, rfl,
    rfl, rfl⟩, rfl, rfl⟩

/-- C8 (as stated, refuted): on the specification's example position (entry
"100", mark "110", quantity "2", side long) no operation that the program
declares returns a decimal equal to `(110 - 100) * 2`; the one it has returns
"0". -/
theorem no_unrealizedPnL_operation :
    examplePosition.EntryPrice = "100" ∧ examplePosition.MarkPrice = "110" ∧
    examplePosition.Quantity = "2" ∧ examplePosition.Side = OrderTypeLong ∧
    ¬ ∃ op : Operation, ∃ v : String,
        (op.run examplePosition).1 = v ∧ decimalValue v = some ((110 - 100) * 2) := by
  refine ⟨rfl, rfl, rfl, rfl, ?_⟩
  rintro ⟨op, v, hv, hval⟩
  cases op
  have h0 : v = "0" := hv.symm
  rw [h0, decimalValue_zero] at hval
  norm_num at hval

/-- C8 (amended): the program provides no unrealizedPnL operation. No function
that `models.go` declares returns, for all well-formed entry price, mark price
and quantity, `(markPrice - entryPrice) * quantity` for a long position and
`(entryPrice - markPrice) * quantity` for a short one. Unrealized P&L is a
stored field of Position: `UnrealizedPnL` can hold any string, whatever the
values of the other sixteen fields. -/
theorem unrealizedPnL_stored_not_computed :
    (¬ ∃ op : Operation, ∀ (p : Position) (e m q : ℚ),
        decimalValue p.EntryPrice = some e → decimalValue p.MarkPrice = some m →
        decimalValue p.Quantity = some q →
        (p.Side = OrderTypeLong →
          ∃ v : String, op.run p = (v, none) ∧ decimalValue v = some ((m - e) * q)) ∧
        (p.Side = OrderTypeShort →
          ∃ v : String, op.run p = (v, none) ∧ decimalValue v = some ((e - m) * q))) ∧
    (∀ (p : Position) (u : String), ∃ p2 : Position,
        p2.UnrealizedPnL = u ∧
        p2.PositionID = p.PositionID ∧ p2.Symbol = p.Symbol ∧ p2.AssetID = p.AssetID ∧
        p2.EntryPrice = p.EntryPrice ∧ p2.Quantity = p.Quantity ∧ p2.Side = p.Side ∧
        p2.Status = p.Status ∧ p2.Leverage = p.Leverage ∧
        p2.RealizedPnL = p.RealizedPnL ∧ p2.Margin = p.Margin ∧
        p2.MarginRatio = p.MarginRatio ∧ p2.MarkPrice = p.MarkPrice ∧
        p2.StopLoss = p.StopLoss ∧ p2.TakeProfit = p.TakeProfit ∧
        p2.CreatedAt = p.CreatedAt ∧ p2.UpdatedAt = p.UpdatedAt) := by
  refine ⟨?_, fun p u => ⟨{ p with UnrealizedPnL := u }, rfl, rfl, rfl, rfl, rfl, rfl,
    rfl, rfl, rfl, rfl, rfl, rfl, rfl, rfl, rfl, rfl, rfl⟩⟩
  rintro ⟨op, hop⟩
  obtain ⟨v, hv, hval⟩ :=
    (hop examplePosition 100 110 2 decimalValue_hundred decimalValue_hundred_ten
      decimalValue_two).1 rfl
  cases op
  have h0 : v = "0" := (congrArg Prod.fst hv).symm
  rw [h0, decimalValue_zero] at hval
  norm_num at hval

/-! ## Enums -/

/-- C9: the enum types are open. Each of OrderType, TriggerType, MarginType,
OrderStatus, PositionStatus and WalletType has a value equal to none of its
declared constants, and the declared constants of each type are pairwise
distinct. -/
theorem enums_open_constants_distinct :
    ((∃ v : OrderType, v ∉ orderTypeConstants) ∧
     (∃ v : TriggerType, v ∉ triggerTypeConstants) ∧
     (∃ v : MarginType, v ∉ marginTypeConstants) ∧
     (∃ v : OrderStatus, v ∉ orderStatusConstants) ∧
     (∃ v : PositionStatus, v ∉ positionStatusConstants) ∧
     (∃ v : WalletType, v ∉ walletTypeConstants)) ∧
    (orderTypeConstants.Pairwise (fun a b => a ≠ b) ∧
     triggerTypeConstants.Pairwise (fun a b => a ≠ b) ∧
     marginTypeConstants.Pairwise (fun a b => a ≠ b) ∧
     orderStatusConstants.Pairwise (fun a b => a ≠ b) ∧
     positionStatusConstants.Pairwise (fun a b => a ≠ b) ∧
     walletTypeConstants.Pairwise (fun a b => a ≠ b)) := by
  refine ⟨⟨⟨⟨"HEDGE"⟩, by decide⟩, ⟨⟨"STOP"⟩, by decide⟩, ⟨⟨"CROSS"⟩, by decide⟩,
    ⟨⟨"PENDING"⟩, by decide⟩, ⟨⟨"PENDING"⟩, by decide⟩, ⟨⟨"MARGIN"⟩, by decide⟩⟩,
    by decide, by decide, by decide, by decide, by decide, by decide⟩

/-! ## JSON shape -/

/-- C7: for every APIResponse whose Data is empty or valid JSON, encoding
succeeds with an object that always has the key "success"; has "message"
exactly when Message is non-empty, "data" exactly when Data is non-empty and
"error" exactly when Error is non-nil; the error object then has exactly the
keys "code" (an integer) and "message" (a string); and there are no other
keys. -/
theorem marshalAPIResponse_keys (valid : String → Bool) (r : APIResponse)
    (h : r.Data = "" ∨ valid r.Data = true) :
    ∃ fields : List (String × JValue),
      marshalAPIResponse valid r = some (JValue.obj fields) ∧
      "success" ∈ (JValue.obj fields).keys ∧
      (JValue.obj fields).get "success" = some (JValue.bool r.Success) ∧
      ("message" ∈ (JValue.obj fields).keys ↔ r.Message ≠ "") ∧
      ("data" ∈ (JValue.obj fields).keys ↔ r.Data ≠ "") ∧
      ("error" ∈ (JValue.obj fields).keys ↔ r.Error ≠ none) ∧
      (∀ e : APIError, r.Error = some e →
        (JValue.obj fields).get "error"
          = some (JValue.obj [("code", JValue.num e.Code),
              ("message", JValue.str e.Message)]) ∧
        (JValue.obj [("code", JValue.num e.Code),
              ("message", JValue.str e.Message)]).keys = ["code", "message"]) ∧
      (∀ k ∈ (JValue.obj fields).keys, k ∈ ["success", "message", "data", "error"]) := by
  have hv : ((r.Data == "") || valid r.Data) = true := by
    rcases h with h | h <;> simp [h]
  have hm : marshalAPIResponse valid r = some (JValue.obj
      (encodeField false (!r.Success) "success" (JValue.bool r.Success)
        ++ encodeField true (r.Message == "") "message" (JValue.str r.Message)
        ++ encodeField true (r.Data == "") "data" (JValue.raw r.Data)
        ++ encodeField true r.Error.isNone "error" (encodeAPIErrorPtr r.Error))) := by
    simp only [marshalAPIResponse, hv, if_true]
  refine ⟨_, hm, ?_⟩
  clear hm hv h
  obtain ⟨succ, msg, data, err⟩ := r
  by_cases hm : msg = "" <;> by_cases hd : data = "" <;> cases err <;>
    simp [encodeField, JValue.keys, JValue.get, encodeAPIErrorPtr, encodeAPIError, hm, hd]

/-- Witness for C7: a failed response with payload "null" and an error. -/
theorem marshalAPIResponse_keys_witness :
    (errorResponse.Data = "" ∨ validLiteral errorResponse.Data = true) ∧
    ∃ fields : List (String × JValue),
      marshalAPIResponse validLiteral errorResponse = some (JValue.obj fields) ∧
      "success" ∈ (JValue.obj fields).keys ∧
      (JValue.obj fields).get "success" = some (JValue.bool errorResponse.Success) ∧
      ("message" ∈ (JValue.obj fields).keys ↔ errorResponse.Message ≠ "") ∧
      ("data" ∈ (JValue.obj fields).keys ↔ errorResponse.Data ≠ "") ∧
      ("error" ∈ (JValue.obj fields).keys ↔ errorResponse.Error ≠ none) ∧
      (∀ e : APIError, errorResponse.Error = some e →
        (JValue.obj fields).get "error"
          = some (JValue.obj [("code", JValue.num e.Code),
              ("message", JValue.str e.Message)]) ∧
        (JValue.obj [("code", JValue.num e.Code),
              ("message", JValue.str e.Message)]).keys = ["code", "message"]) ∧
      (∀ k ∈ (JValue.obj fields).keys, k ∈ ["success", "message", "data", "error"]) :=
  ⟨Or.inr (by decide),
    marshalAPIResponse_keys validLiteral errorResponse (Or.inr (by decide))⟩

/-- C10: for every OrderRequest, the encoding is an object that always has
the keys leverage, quantity, order_type and trigger_type; has price,
stoploss_price or takeprofit_price exactly when the matching pointer is
non-nil (a pointer to the empty string is still written); has reduce_only
exactly when ReduceOnly is true; with all three pointers nil and ReduceOnly
false it has exactly the four keys; and no value is null. -/
theorem marshalOrderRequest_keys (r : OrderRequest) :
    ∃ fields : List (String × JValue),
      marshalOrderRequest r = JValue.obj fields ∧
      ("leverage" ∈ (JValue.obj fields).keys ∧ "quantity" ∈ (JValue.obj fields).keys ∧
        "order_type" ∈ (JValue.obj fields).keys ∧
        "trigger_type" ∈ (JValue.obj fields).keys) ∧
      ("price" ∈ (JValue.obj fields).keys ↔ r.Price ≠ none) ∧
      ("stoploss_price" ∈ (JValue.obj fields).keys ↔ r.StopLossPrice ≠ none) ∧
      ("takeprofit_price" ∈ (JValue.obj fields).keys ↔ r.TakeProfitPrice ≠ none) ∧
      ("reduce_only" ∈ (JValue.obj fields).keys ↔ r.ReduceOnly = true) ∧
      (r.Price = some "" → ("price", JValue.str "") ∈ fields) ∧
      (r.StopLossPrice = some "" → ("stoploss_price", JValue.str "") ∈ fields) ∧
      (r.TakeProfitPrice = some "" → ("takeprofit_price", JValue.str "") ∈ fields) ∧
      (r.Price = none → r.StopLossPrice = none → r.TakeProfitPrice = none →
        r.ReduceOnly = false →
        (JValue.obj fields).keys = ["leverage", "quantity", "order_type", "trigger_type"]) ∧
      (∀ kv ∈ fields, kv.2 ≠ JValue.null) := by
  refine ⟨_, rfl, ?_⟩
  obtain ⟨lev, qty, ot, tt, price, sl, tp, ro⟩ := r
  cases price <;> cases sl <;> cases tp <;> cases ro <;>
    simp [encodeField, JValue.keys, encodeStringPtr] <;>
    (repeat' constructor) <;> (intro hs; exact hs.symm)

end Mudrex
